import Mathlib

/-!
Shallow embedding of the bug-tracker backend core:
validation pipeline, sanitizer, response formatter and record operations.

Sources embedded here:
* `backend/src/utils/validators.js`  — `sanitizeInput`, `isValidStatus`,
  `isValidPriority`, `meetsMinLength`, `formatBugResponse`
* `backend/src/middleware/validation.js` — `createBugValidation`,
  `updateBugValidation`, `bugIdValidation`, `validateRequest`
* `backend/src/routes/bugRoutes.js` — route wiring (middleware order)
* `backend/src/controllers/bugController.js` — `getAllBugs`, `getBugById`,
  `createBug`, `updateBug`, `deleteBug`, `getBugStats`
* `backend/src/models/Bug.js` — the Mongoose schema (storage-layer setters,
  defaults and validation)

JS strings are modelled as `String` (lists of characters), dates as `Nat`
timestamps, the Mongo collection as a `List BugRecord`, and the opaque
ObjectId as the 24-hex-character `String` the route validator checks for.
-/

/-- JS `String.prototype.trim` on a character list: drop whitespace from
both ends. -/
def jsTrimChars (l : List Char) : List Char :=
  ((l.dropWhile Char.isWhitespace).reverse.dropWhile Char.isWhitespace).reverse

/-- JS `String.prototype.trim`. -/
def jsTrim (s : String) : String :=
  ⟨jsTrimChars s.data⟩

/-- The characters removed by `sanitizeInput`'s `replace(/[<>]/g, '')`. -/
def isAngle (c : Char) : Bool :=
  c == '<' || c == '>'

/-- `sanitizeInput` (validators.js lines 26-33) on the character list:
`input.trim().replace(/[<>]/g, '').slice(0, 1000)`. -/
def sanitizeChars (l : List Char) : List Char :=
  ((jsTrimChars l).filter (fun c => !isAngle c)).take 1000

/-- `sanitizeInput` (validators.js lines 26-33) restricted to string inputs
(non-string inputs are returned unchanged by the JS function). -/
def sanitizeInput (s : String) : String :=
  ⟨sanitizeChars s.data⟩

/-- The status enumeration (validators.js line 7, Bug.js line 19,
validation.js line 83). -/
def validStatuses : List String :=
  ["open", "in-progress", "resolved", "closed"]

/-- The priority enumeration (validators.js line 17, Bug.js line 24,
validation.js lines 52 and 87). -/
def validPriorities : List String :=
  ["low", "medium", "high", "critical"]

/-- `isValidStatus` (validators.js lines 6-9). -/
def isValidStatus (status : String) : Bool :=
  validStatuses.contains status

/-- `isValidPriority` (validators.js lines 16-19). -/
def isValidPriority (priority : String) : Bool :=
  validPriorities.contains priority

/-- A JSON value that may appear in the `tags` position of a request body:
either an array of strings or a scalar. -/
inductive TagsVal where
  | arr (tags : List String)
  | scalar (s : String)
deriving DecidableEq

/-- A parsed request body for the bug routes.  Each field is `none` when the
key is absent (JS `undefined`). -/
structure BugPayload where
  title : Option String := none
  description : Option String := none
  status : Option String := none
  priority : Option String := none
  reporter : Option String := none
  assignedTo : Option String := none
  tags : Option TagsVal := none
deriving DecidableEq

/-- The value an express-validator chain sees after `.trim()`: a missing
(undefined) field is coerced to the empty string before validators run. -/
def chainValue (v : Option String) : String :=
  jsTrim (v.getD "")

/-- `createBugValidation` (validation.js lines 39-65): the full ordered list
of violation messages produced by one pass of the create chains.  Every
validator in a chain runs (no bail), so one field can contribute several
messages; `.optional()` skips a chain only when the field is undefined. -/
def createBugValidationErrors (p : BugPayload) : List String :=
  let t := chainValue p.title
  let d := chainValue p.description
  let r := chainValue p.reporter
  (if t = "" then ["Title is required"] else []) ++
  (if t.length < 3 || t.length > 200 then ["Title must be 3-200 characters"] else []) ++
  (if d = "" then ["Description is required"] else []) ++
  (if d.length < 10 then ["Description must be at least 10 characters"] else []) ++
  (match p.priority with
   | none => []
   | some pr => if pr ∈ validPriorities then [] else ["Invalid priority"]) ++
  (if r = "" then ["Reporter name is required"] else []) ++
  (match p.tags with
   | none => []
   | some (.arr _) => []
   | some (.scalar _) => ["Tags must be an array"])

/-- `updateBugValidation` (validation.js lines 70-96): every chain is
`.optional()`, so a chain runs only when its field is present; there is a
`status` chain here, unlike in the create rules. -/
def updateBugValidationErrors (p : BugPayload) : List String :=
  (match p.title with
   | none => []
   | some t0 =>
     let t := jsTrim t0
     if t.length < 3 || t.length > 200 then ["Title must be 3-200 characters"] else []) ++
  (match p.description with
   | none => []
   | some d0 => if (jsTrim d0).length < 10 then ["Description must be at least 10 characters"] else []) ++
  (match p.status with
   | none => []
   | some s => if s ∈ validStatuses then [] else ["Invalid status"]) ++
  (match p.priority with
   | none => []
   | some pr => if pr ∈ validPriorities then [] else ["Invalid priority"]) ++
  (match p.tags with
   | none => []
   | some (.arr _) => []
   | some (.scalar _) => ["Tags must be an array"])

/-- A hexadecimal digit, as accepted by validator.js `isMongoId`. -/
def isHexChar (c : Char) : Bool :=
  c.isDigit || ('a' ≤ c && c ≤ 'f') || ('A' ≤ c && c ≤ 'F')

/-- validator.js `isMongoId`: a 24-character hexadecimal string. -/
def isMongoId (s : String) : Bool :=
  s.length == 24 && s.data.all isHexChar

/-- `bugIdValidation` (validation.js lines 101-104). -/
def bugIdValidationErrors (id : String) : List String :=
  if isMongoId id then [] else ["Invalid bug ID format"]

/-- `AppError` (README / middleware snippet): the message and HTTP status
code the error handler will send. -/
structure AppError where
  message : String
  statusCode : Nat
deriving DecidableEq

/-- `validateRequest` (validation.js lines 109-118): when any violation was
recorded, halt with a single 400 error whose message joins all messages. -/
def validateRequest (errs : List String) : Option AppError :=
  if errs.isEmpty then none
  else some ⟨String.intercalate ", " errs, 400⟩

/-- A stored bug document.  The Mongo `_id` is modelled as the 24-hex
string; timestamps as `Nat`. -/
structure BugRecord where
  _id : String
  title : String
  description : String
  status : String
  priority : String
  reporter : String
  assignedTo : Option String
  tags : List String
  createdAt : Nat
  updatedAt : Nat
deriving DecidableEq

/-- A JSON field value in a wire response object. -/
inductive FieldVal where
  | str (s : String)
  | ostr (s : Option String)
  | strs (l : List String)
  | date (n : Nat)
deriving DecidableEq

/-- `formatBugResponse` (validators.js lines 60-73), modelled as the ordered
key/value list of the object literal the JS function returns. -/
def formatBugResponse (bug : BugRecord) : List (String × FieldVal) :=
  [("id", .str bug._id),
   ("title", .str bug.title),
   ("description", .str bug.description),
   ("status", .str bug.status),
   ("priority", .str bug.priority),
   ("reporter", .str bug.reporter),
   ("assignedTo", .ostr bug.assignedTo),
   ("tags", .strs bug.tags),
   ("createdAt", .date bug.createdAt),
   ("updatedAt", .date bug.updatedAt)]

/-- JS `a || b` on an optional string: the default is used when the value is
absent (undefined) or falsy (the empty string). -/
def jsOr (v : Option String) (dflt : String) : String :=
  match v with
  | none => dflt
  | some s => if s = "" then dflt else s

/-- The `bugData` object built by `createBug` (bugController.js lines 68-76):
sanitizes the free-text fields, defaults `status`/`priority` with `||`, maps
a falsy `assignedTo` to undefined, and defaults `tags` with `|| []`. -/
structure CreateDoc where
  title : Option String
  description : Option String
  status : String
  priority : String
  reporter : Option String
  assignedTo : Option String
  tags : TagsVal
deriving DecidableEq

/-- `createBug`'s construction of `bugData` (bugController.js lines 68-76). -/
def createBugData (p : BugPayload) : CreateDoc :=
  { title := p.title.map sanitizeInput,
    description := p.description.map sanitizeInput,
    status := jsOr p.status "open",
    priority := jsOr p.priority "medium",
    reporter := p.reporter.map sanitizeInput,
    assignedTo :=
      match p.assignedTo with
      | none => none
      | some a => if a = "" then none else some (sanitizeInput a),
    tags :=
      match p.tags with
      | none => .arr []
      | some (.scalar s) => if s = "" then .arr [] else .scalar s
      | some (.arr l) => .arr l }

/-- Mongoose cast of a value assigned to the `tags : [String]` path: an
array keeps its (trimmed) elements, a scalar is wrapped. -/
def castTags : TagsVal → List String
  | .arr l => l.map jsTrim
  | .scalar s => [jsTrim s]

/-- The default Mongoose enum failure message for a path, with the offending
value substituted. -/
def schemaEnumError (path value : String) : String :=
  "`" ++ value ++ "` is not a valid enum value for path `" ++ path ++ "`."

/-- Schema-level validation run by `Bug.create` (Bug.js lines 3-50), after
the `trim` setters and defaults: at most one message per path, in schema
path order, exactly the shape `Object.values(error.errors).map(e => e.message)`
recovers in the controller. -/
def bugCreateValidationErrors (d : CreateDoc) : List String :=
  (match d.title.map jsTrim with
   | none => ["Bug title is required"]
   | some s =>
     if s = "" then ["Bug title is required"]
     else if s.length < 3 then ["Title must be at least 3 characters"]
     else if s.length > 200 then ["Title cannot exceed 200 characters"]
     else []) ++
  (match d.description.map jsTrim with
   | none => ["Bug description is required"]
   | some s =>
     if s = "" then ["Bug description is required"]
     else if s.length < 10 then ["Description must be at least 10 characters"]
     else []) ++
  (if d.status ∈ validStatuses then [] else [schemaEnumError "status" d.status]) ++
  (if d.priority ∈ validPriorities then [] else [schemaEnumError "priority" d.priority]) ++
  (match d.reporter.map jsTrim with
   | none => ["Reporter name is required"]
   | some s => if s = "" then ["Reporter name is required"] else [])

/-- A failure reported by the storage collaborator. -/
inductive StoreErr where
  | validation (msgs : List String)
  | other (message : String)
deriving DecidableEq

/-- `Bug.create` (Mongoose): apply the `trim` setters, validate, and either
reject with a schema `ValidationError` or persist a new document whose
timestamps are set to `now` and whose `_id` is assigned by the store. -/
def bugCreate (d : CreateDoc) (newId : String) (now : Nat) :
    Except StoreErr BugRecord :=
  match bugCreateValidationErrors d with
  | [] => .ok
      { _id := newId,
        title := jsTrim (d.title.getD ""),
        description := jsTrim (d.description.getD ""),
        status := d.status,
        priority := d.priority,
        reporter := jsTrim (d.reporter.getD ""),
        assignedTo := d.assignedTo.map jsTrim,
        tags := castTags d.tags,
        createdAt := now,
        updatedAt := now }
  | errs => .error (.validation errs)

/-- `Bug.findById`: lookup by primary key. -/
def findById (store : List BugRecord) (id : String) : Option BugRecord :=
  store.find? (fun b => b._id == id)

/-- The sparse `updates` object built by `updateBug` (bugController.js
lines 115-121). -/
structure BugUpdates where
  title : Option String := none
  description : Option String := none
  status : Option String := none
  priority : Option String := none
  assignedTo : Option String := none
  tags : Option TagsVal := none
deriving DecidableEq

/-- `updateBug`'s construction of `updates` (bugController.js lines 115-121):
`if (req.body.x)` truthiness checks for all fields except `assignedTo`,
which uses an explicit `!== undefined` test so the empty string is kept. -/
def buildUpdates (p : BugPayload) : BugUpdates :=
  { title :=
      match p.title with
      | none => none
      | some t => if t = "" then none else some (sanitizeInput t),
    description :=
      match p.description with
      | none => none
      | some d => if d = "" then none else some (sanitizeInput d),
    status :=
      match p.status with
      | none => none
      | some s => if s = "" then none else some s,
    priority :=
      match p.priority with
      | none => none
      | some pr => if pr = "" then none else some pr,
    assignedTo := p.assignedTo.map sanitizeInput,
    tags :=
      match p.tags with
      | none => none
      | some (.scalar s) => if s = "" then none else some (.scalar s)
      | some (.arr l) => some (.arr l) }

/-- The update validators Mongoose runs under `runValidators: true`
(Bug.js lines 3-50): only the paths present in the update are validated
(after the `trim` setters), at most one message per path. -/
def bugUpdateValidationErrors (u : BugUpdates) : List String :=
  (match u.title.map jsTrim with
   | none => []
   | some s =>
     if s = "" then ["Bug title is required"]
     else if s.length < 3 then ["Title must be at least 3 characters"]
     else if s.length > 200 then ["Title cannot exceed 200 characters"]
     else []) ++
  (match u.description.map jsTrim with
   | none => []
   | some s =>
     if s = "" then ["Bug description is required"]
     else if s.length < 10 then ["Description must be at least 10 characters"]
     else []) ++
  (match u.status with
   | none => []
   | some s => if s ∈ validStatuses then [] else [schemaEnumError "status" s]) ++
  (match u.priority with
   | none => []
   | some pr => if pr ∈ validPriorities then [] else [schemaEnumError "priority" pr])

/-- Apply a sparse update to a stored document: present fields are set
(through the `trim` setters), absent fields are untouched, and the
`timestamps` option refreshes `updatedAt`. -/
def applyUpdates (b : BugRecord) (u : BugUpdates) (now : Nat) : BugRecord :=
  { b with
    title := match u.title with | none => b.title | some t => jsTrim t,
    description := match u.description with | none => b.description | some d => jsTrim d,
    status := u.status.getD b.status,
    priority := u.priority.getD b.priority,
    assignedTo := match u.assignedTo with | none => b.assignedTo | some a => some (jsTrim a),
    tags := match u.tags with | none => b.tags | some t => castTags t,
    updatedAt := now }

/-- `Bug.findByIdAndUpdate(id, updates, { new: true, runValidators: true })`:
validate the updated paths, then return the updated document (or `none` when
the id matches nothing) together with the new collection contents. -/
def findByIdAndUpdate (store : List BugRecord) (id : String) (u : BugUpdates)
    (now : Nat) : Except StoreErr (Option BugRecord × List BugRecord) :=
  match findById store id with
  | none => .ok (none, store)
  | some b =>
    match bugUpdateValidationErrors u with
    | [] =>
      let b' := applyUpdates b u now
      .ok (some b', store.map (fun x => if x._id == id then b' else x))
    | errs => .error (.validation errs)

/-- The body of a single-bug success response. -/
structure BugResponse where
  success : Bool
  data : List (String × FieldVal)
deriving DecidableEq

/-- The outcome of running a controller: either a JSON response with an HTTP
status, or an error handed to `next(...)` and rendered by the error-handler
middleware as `{ message, statusCode }` (a missing status code defaults
to 500 there, per the middleware snippet in the README). -/
inductive CtrlOut (α : Type) where
  | ok (status : Nat) (body : α)
  | fail (e : AppError)
deriving DecidableEq

/-- How the `catch` blocks of `createBug`/`updateBug` (bugController.js
lines 88-98 and 137-146) render a storage failure: a Mongoose
`ValidationError` is downgraded to `AppError(messages.join(", "), 400)`;
anything else goes to `next(error)` and the error handler serves it with
the default 500 status. -/
def storeErrorResponse (e : StoreErr) : AppError :=
  match e with
  | .validation msgs => ⟨String.intercalate ", " msgs, 400⟩
  | .other m => ⟨m, 500⟩

/-- The tail of `createBug` after the `Bug.create` call resolves. -/
def createBugRespond (r : Except StoreErr BugRecord) : CtrlOut BugResponse :=
  match r with
  | .ok bug => .ok 201 ⟨true, formatBugResponse bug⟩
  | .error e => .fail (storeErrorResponse e)

/-- `createBug` (bugController.js lines 65-99), with the collection state
threaded explicitly: on success the new document is stored. -/
def createBug (p : BugPayload) (store : List BugRecord) (newId : String)
    (now : Nat) : CtrlOut BugResponse × List BugRecord :=
  let r := bugCreate (createBugData p) newId now
  (createBugRespond r,
   match r with
   | .ok bug => store ++ [bug]
   | .error _ => store)

/-- `getBugById` (bugController.js lines 40-58). -/
def getBugById (id : String) (store : List BugRecord) : CtrlOut BugResponse :=
  match findById store id with
  | none => .fail ⟨"Bug not found", 404⟩
  | some b => .ok 200 ⟨true, formatBugResponse b⟩

/-- `updateBug` (bugController.js lines 106-147): existence check, sparse
update through the storage layer with `runValidators`, `ValidationError`
downgraded to a 400 `AppError`. -/
def updateBug (p : BugPayload) (id : String) (store : List BugRecord)
    (now : Nat) : CtrlOut BugResponse × List BugRecord :=
  match findById store id with
  | none => (.fail ⟨"Bug not found", 404⟩, store)
  | some _ =>
    match findByIdAndUpdate store id (buildUpdates p) now with
    | .ok (some b', store') => (.ok 200 ⟨true, formatBugResponse b'⟩, store')
    | .ok (none, store') => (.fail ⟨"TypeError", 500⟩, store')
    | .error e => (.fail (storeErrorResponse e), store)

/-- The body of the delete success response. -/
structure DeleteResponse where
  success : Bool
  message : String
deriving DecidableEq

/-- `deleteBug` (bugController.js lines 154-176). -/
def deleteBug (id : String) (store : List BugRecord) :
    CtrlOut DeleteResponse × List BugRecord :=
  match findById store id with
  | none => (.fail ⟨"Bug not found", 404⟩, store)
  | some _ => (.ok 200 ⟨true, "Bug deleted successfully"⟩,
               store.filter (fun b => !(b._id == id)))

/-- The query string of `GET /api/bugs` (bugController.js line 13).  A key
given with an empty value is the empty string, which is falsy in JS. -/
structure ListQuery where
  status : Option String := none
  priority : Option String := none
  sortBy : Option String := none
deriving DecidableEq

/-- The equality filter `getAllBugs` builds (bugController.js lines 16-18):
a falsy (absent or empty) parameter adds no clause. -/
def matchesQuery (q : ListQuery) (b : BugRecord) : Bool :=
  (match q.status with
   | none => true
   | some s => if s = "" then true else b.status == s) &&
  (match q.priority with
   | none => true
   | some pr => if pr = "" then true else b.priority == pr)

/-- The single-field comparison behind Mongo `.sort(field)`; unknown field
names impose no order. -/
def sortFieldLE (f : String) (a b : BugRecord) : Bool :=
  if f = "createdAt" then decide (a.createdAt ≤ b.createdAt)
  else if f = "updatedAt" then decide (a.updatedAt ≤ b.updatedAt)
  else if f = "title" then decide (a.title ≤ b.title)
  else if f = "status" then decide (a.status ≤ b.status)
  else if f = "priority" then decide (a.priority ≤ b.priority)
  else if f = "reporter" then decide (a.reporter ≤ b.reporter)
  else true

/-- Mongo `.sort(sortBy)` comparator: a leading `-` sorts descending. -/
def bugSortLE (sortBy : String) (a b : BugRecord) : Bool :=
  if sortBy.startsWith "-" then sortFieldLE (sortBy.drop 1) b a
  else sortFieldLE sortBy a b

/-- Insert into a sorted list (the model of the store's sort). -/
def insertSorted (le : BugRecord → BugRecord → Bool) (x : BugRecord) :
    List BugRecord → List BugRecord
  | [] => [x]
  | y :: ys => if le x y then x :: y :: ys else y :: insertSorted le x ys

/-- Sort the matched documents with the comparator. -/
def sortBugs (le : BugRecord → BugRecord → Bool) :
    List BugRecord → List BugRecord
  | [] => []
  | x :: xs => insertSorted le x (sortBugs le xs)

/-- The body of the list success response. -/
structure BugListResponse where
  success : Bool
  count : Nat
  data : List (List (String × FieldVal))
deriving DecidableEq

/-- `getAllBugs` (bugController.js lines 10-33): equality filters, sort
(default `-createdAt` only when the parameter is undefined), then format. -/
def getAllBugs (q : ListQuery) (store : List BugRecord) :
    CtrlOut BugListResponse :=
  let bugs := sortBugs (bugSortLE (q.sortBy.getD "-createdAt"))
    (store.filter (matchesQuery q))
  .ok 200 ⟨true, bugs.length, bugs.map formatBugResponse⟩

/-- Mongo `$group: { _id: field, count: { $sum: 1 } }` over the whole
collection: one `(value, count)` pair per distinct value of the field (the
group key is carried in the result's `_id` member on the wire). -/
def aggregateCountBy (f : BugRecord → String) (store : List BugRecord) :
    List (String × Nat) :=
  (store.map f).dedup.map (fun v => (v, (store.filter (fun b => f b == v)).length))

/-- The `data` member of the stats response. -/
structure StatsData where
  byStatus : List (String × Nat)
  byPriority : List (String × Nat)
deriving DecidableEq

/-- The body of the stats response. -/
structure StatsResponse where
  success : Bool
  data : StatsData
deriving DecidableEq

/-- `getBugStats` (bugController.js lines 183-214): two unfiltered
aggregations of the whole collection. -/
def getBugStats (store : List BugRecord) : CtrlOut StatsResponse :=
  .ok 200 ⟨true, ⟨aggregateCountBy (fun b => b.status) store,
                  aggregateCountBy (fun b => b.priority) store⟩⟩

/-- What a request yields at the route level: either a validation middleware
rejection (the controller never runs), or the controller's outcome. -/
inductive RouteOutcome (α : Type) where
  | rejected (e : AppError)
  | handled (r : α)
deriving DecidableEq

/-- `POST /api/bugs` = `createBugValidation, validateRequest, createBug`
(bugRoutes.js line 25). -/
def postBugsRoute (p : BugPayload) (store : List BugRecord) (newId : String)
    (now : Nat) : RouteOutcome (CtrlOut BugResponse) × List BugRecord :=
  match validateRequest (createBugValidationErrors p) with
  | some err => (.rejected err, store)
  | none =>
    let (out, store') := createBug p store newId now
    (.handled out, store')

/-- `GET /api/bugs/:id` = `bugIdValidation, validateRequest, getBugById`
(bugRoutes.js line 28). -/
def getBugByIdRoute (id : String) (store : List BugRecord) :
    RouteOutcome (CtrlOut BugResponse) :=
  match validateRequest (bugIdValidationErrors id) with
  | some err => .rejected err
  | none => .handled (getBugById id store)

/-- `PUT /api/bugs/:id` = `bugIdValidation, updateBugValidation,
validateRequest, updateBug` (bugRoutes.js line 29): both validations run
before the check, so their messages accumulate in order. -/
def putBugsRoute (id : String) (p : BugPayload) (store : List BugRecord)
    (now : Nat) : RouteOutcome (CtrlOut BugResponse) × List BugRecord :=
  match validateRequest (bugIdValidationErrors id ++ updateBugValidationErrors p) with
  | some err => (.rejected err, store)
  | none =>
    let (out, store') := updateBug p id store now
    (.handled out, store')

/-- `DELETE /api/bugs/:id` = `bugIdValidation, validateRequest, deleteBug`
(bugRoutes.js line 30). -/
def deleteBugsRoute (id : String) (store : List BugRecord) :
    RouteOutcome (CtrlOut DeleteResponse) × List BugRecord :=
  match validateRequest (bugIdValidationErrors id) with
  | some err => (.rejected err, store)
  | none =>
    let (out, store') := deleteBug id store
    (.handled out, store')

/-- A concrete stored record used to exercise the record operations. -/
def sampleBug : BugRecord :=
  { _id := "aaaaaaaaaaaaaaaaaaaaaaaa", title := "Sample bug",
    description := "Something broke badly", status := "open",
    priority := "medium", reporter := "Jane", assignedTo := none,
    tags := [], createdAt := 0, updatedAt := 0 }

/-- The concrete accepted update payload used to exercise C2. -/
def c2Payload : BugPayload :=
  { title := some "Crash <on> save  ", status := some "resolved" }

theorem dropWhile_dropWhile_eq (p : Char → Bool) (l : List Char) :
    (l.dropWhile p).dropWhile p = l.dropWhile p := by
  induction l with
  | nil => rfl
  | cons a t ih =>
    by_cases h : p a
    · simp [List.dropWhile_cons, h, ih]
    · simp [List.dropWhile_cons, h]

theorem head_false_of_dropWhile (p : Char → Bool) (l t : List Char) (a : Char)
    (h : l.dropWhile p = a :: t) : p a = false := by
  induction l with
  | nil => simp [List.dropWhile] at h
  | cons b bs ih =>
    rw [List.dropWhile_cons] at h
    by_cases hb : p b
    · exact ih (by simpa [hb] using h)
    · obtain ⟨rfl, -⟩ : b = a ∧ bs = t := by
        simpa [hb] using h
      simpa using hb

theorem dropWhile_jsTrimChars (l : List Char) :
    (jsTrimChars l).dropWhile Char.isWhitespace = jsTrimChars l := by
  unfold jsTrimChars
  cases hml : l.dropWhile Char.isWhitespace with
  | nil => simp
  | cons a t =>
    have ha : Char.isWhitespace a = false := head_false_of_dropWhile _ _ _ _ hml
    rw [List.reverse_cons, List.dropWhile_append]
    by_cases he : (t.reverse.dropWhile Char.isWhitespace).isEmpty
    · simp [he, List.dropWhile_cons, ha]
    · simp [he, List.reverse_append, List.dropWhile_cons, ha]

theorem jsTrimChars_idem (l : List Char) :
    jsTrimChars (jsTrimChars l) = jsTrimChars l := by
  conv_lhs => rw [jsTrimChars]
  rw [dropWhile_jsTrimChars]
  rw [show (jsTrimChars l).reverse
      = (l.dropWhile Char.isWhitespace).reverse.dropWhile Char.isWhitespace from by
    rw [jsTrimChars, List.reverse_reverse]]
  rw [dropWhile_dropWhile_eq]
  rfl

theorem mem_of_mem_jsTrimChars {c : Char} {l : List Char}
    (h : c ∈ jsTrimChars l) : c ∈ l := by
  unfold jsTrimChars at h
  rw [List.mem_reverse] at h
  have h2 := (List.dropWhile_sublist _).subset h
  rw [List.mem_reverse] at h2
  exact (List.dropWhile_sublist _).subset h2

theorem jsTrimChars_length_le (l : List Char) :
    (jsTrimChars l).length ≤ l.length := by
  unfold jsTrimChars
  calc ((l.dropWhile Char.isWhitespace).reverse.dropWhile Char.isWhitespace).reverse.length
      = ((l.dropWhile Char.isWhitespace).reverse.dropWhile Char.isWhitespace).length := by
        rw [List.length_reverse]
    _ ≤ (l.dropWhile Char.isWhitespace).reverse.length := (List.dropWhile_sublist _).length_le
    _ = (l.dropWhile Char.isWhitespace).length := by rw [List.length_reverse]
    _ ≤ l.length := (List.dropWhile_sublist _).length_le

theorem sanitizeChars_eq_trim_of_no_angles (l : List Char) (hlen : l.length ≤ 1000)
    (hang : ∀ c ∈ l, isAngle c = false) :
    sanitizeChars l = jsTrimChars l := by
  unfold sanitizeChars
  have hfilter : (jsTrimChars l).filter (fun c => !isAngle c) = jsTrimChars l :=
    List.filter_eq_self.mpr (fun c hc => by simp [hang c (mem_of_mem_jsTrimChars hc)])
  rw [hfilter, List.take_of_length_le (le_trans (jsTrimChars_length_le l) hlen)]

/-- C4 (amended): for text of length at most 1000 that contains no angle
bracket characters at all, `sanitizeInput` is idempotent. -/
theorem C4_sanitize_idempotent_on_bracket_free_input (s : String)
    (hlen : s.length ≤ 1000)
    (hang : ∀ c ∈ s.data, c ≠ '<' ∧ c ≠ '>') :
    sanitizeInput (sanitizeInput s) = sanitizeInput s := by
  have hang' : ∀ c ∈ s.data, isAngle c = false := by
    intro c hc
    have h := hang c hc
    simp [isAngle, h.1, h.2]
  have h1 : sanitizeChars s.data = jsTrimChars s.data :=
    sanitizeChars_eq_trim_of_no_angles _ hlen hang'
  unfold sanitizeInput
  congr 1
  show sanitizeChars (sanitizeChars s.data) = sanitizeChars s.data
  rw [h1]
  have hlen2 : (jsTrimChars s.data).length ≤ 1000 :=
    le_trans (jsTrimChars_length_le _) hlen
  have hang2 : ∀ c ∈ jsTrimChars s.data, isAngle c = false :=
    fun c hc => hang' c (mem_of_mem_jsTrimChars hc)
  rw [sanitizeChars_eq_trim_of_no_angles _ hlen2 hang2, jsTrimChars_idem]

theorem C4_witness :
    ("hello world" : String).length ≤ 1000 ∧
    (∀ c ∈ ("hello world" : String).data, c ≠ '<' ∧ c ≠ '>') ∧
    sanitizeInput (sanitizeInput "hello world") = sanitizeInput "hello world" :=
  ⟨by decide, by decide,
   C4_sanitize_idempotent_on_bracket_free_input "hello world" (by decide) (by decide)⟩

/-- C4 counterexample: the input is short and its first sanitization pass
leaves no angle brackets, yet a second pass trims further. -/
theorem C4_counterexample :
    ("< a" : String).length ≤ 1000 ∧
    (∀ c ∈ (sanitizeInput "< a").data, c ≠ '<' ∧ c ≠ '>') ∧
    sanitizeInput (sanitizeInput "< a") ≠ sanitizeInput "< a" := by
  decide

/-- C9: sanitizeInput is not idempotent in general. -/
theorem C9_sanitizeInput_not_idempotent :
    ∃ s : String, sanitizeInput (sanitizeInput s) ≠ sanitizeInput s :=
  ⟨"a >", by decide⟩

/-- C3: formatBugResponse exposes exactly one identifier field named id. -/
theorem C3_formatBugResponse_wire_shape (bug : BugRecord) :
    (formatBugResponse bug).map Prod.fst =
      ["id", "title", "description", "status", "priority", "reporter",
       "assignedTo", "tags", "createdAt", "updatedAt"] ∧
    "_id" ∉ (formatBugResponse bug).map Prod.fst ∧
    ((formatBugResponse bug).filter (fun kv => kv.1 == "id")).length = 1 ∧
    (formatBugResponse bug).lookup "id" = some (.str bug._id) ∧
    (formatBugResponse bug).lookup "title" = some (.str bug.title) ∧
    (formatBugResponse bug).lookup "description" = some (.str bug.description) ∧
    (formatBugResponse bug).lookup "status" = some (.str bug.status) ∧
    (formatBugResponse bug).lookup "priority" = some (.str bug.priority) ∧
    (formatBugResponse bug).lookup "reporter" = some (.str bug.reporter) ∧
    (formatBugResponse bug).lookup "assignedTo" = some (.ostr bug.assignedTo) ∧
    (formatBugResponse bug).lookup "tags" = some (.strs bug.tags) ∧
    (formatBugResponse bug).lookup "createdAt" = some (.date bug.createdAt) ∧
    (formatBugResponse bug).lookup "updatedAt" = some (.date bug.updatedAt) := by
  refine ⟨rfl, ?_, rfl, rfl, rfl, rfl, rfl, rfl, rfl, rfl, rfl, rfl, rfl⟩
  show "_id" ∉ (["id", "title", "description", "status", "priority", "reporter",
       "assignedTo", "tags", "createdAt", "updatedAt"] : List String)
  decide

theorem validateRequest_of_ne_nil {errs : List String} (h : errs ≠ []) :
    validateRequest errs = some ⟨String.intercalate ", " errs, 400⟩ := by
  unfold validateRequest
  rw [if_neg]
  simpa [List.isEmpty_iff] using h

/-- C1: a create, update, or identifier-bearing request whose payload or
path identifier violates the validation rules is rejected with HTTP 400
before the controller (and hence any storage call) runs, and the error
message joins ALL violation messages found in the single validation pass. -/
theorem C1_validation_halts_request_with_joined_errors
    (p pu : BugPayload) (idg idu idd : String) (store : List BugRecord)
    (newId : String) (now : Nat)
    (hc : createBugValidationErrors p ≠ [])
    (hu : bugIdValidationErrors idu ++ updateBugValidationErrors pu ≠ [])
    (hg : bugIdValidationErrors idg ≠ [])
    (hd : bugIdValidationErrors idd ≠ []) :
    postBugsRoute p store newId now =
      (.rejected ⟨String.intercalate ", " (createBugValidationErrors p), 400⟩, store) ∧
    putBugsRoute idu pu store now =
      (.rejected ⟨String.intercalate ", "
        (bugIdValidationErrors idu ++ updateBugValidationErrors pu), 400⟩, store) ∧
    getBugByIdRoute idg store =
      .rejected ⟨String.intercalate ", " (bugIdValidationErrors idg), 400⟩ ∧
    deleteBugsRoute idd store =
      (.rejected ⟨String.intercalate ", " (bugIdValidationErrors idd), 400⟩, store) := by
  refine ⟨?_, ?_, ?_, ?_⟩
  · unfold postBugsRoute
    rw [validateRequest_of_ne_nil hc]
  · unfold putBugsRoute
    rw [validateRequest_of_ne_nil hu]
  · unfold getBugByIdRoute
    rw [validateRequest_of_ne_nil hg]
  · unfold deleteBugsRoute
    rw [validateRequest_of_ne_nil hd]

theorem C1_witness :
    createBugValidationErrors { title := some "ab", description := some "short", priority := some "urgent" } ≠ [] ∧
    bugIdValidationErrors "not-a-valid-id" ++ updateBugValidationErrors { status := some "bogus" } ≠ [] ∧
    bugIdValidationErrors "not-a-valid-id" ≠ [] ∧
    bugIdValidationErrors "nope" ≠ [] ∧
    postBugsRoute { title := some "ab", description := some "short", priority := some "urgent" } [] "cafebabecafebabecafebabe" 7 =
      (.rejected ⟨"Title must be 3-200 characters, Description must be at least 10 characters, " ++
        "Invalid priority, Reporter name is required", 400⟩, []) ∧
    putBugsRoute "not-a-valid-id" { status := some "bogus" } [] 7 =
      (.rejected ⟨"Invalid bug ID format, Invalid status", 400⟩, []) ∧
    getBugByIdRoute "not-a-valid-id" [] =
      .rejected ⟨"Invalid bug ID format", 400⟩ ∧
    deleteBugsRoute "nope" [] =
      (.rejected ⟨"Invalid bug ID format", 400⟩, []) := by
  have h := C1_validation_halts_request_with_joined_errors
    { title := some "ab", description := some "short", priority := some "urgent" }
    { status := some "bogus" } "not-a-valid-id" "not-a-valid-id" "nope"
    [] "cafebabecafebabecafebabe" 7
    (by decide) (by decide) (by decide) (by decide)
  refine ⟨by decide, by decide, by decide, by decide, ?_, ?_, ?_, ?_⟩
  · rw [h.1]; decide
  · rw [h.2.1]; decide
  · rw [h.2.2.1]; decide
  · rw [h.2.2.2]; decide

/-- C5: a malformed path identifier is rejected as a 400 ValidationError
before the storage collaborator is consulted, on the get, update and delete
routes alike; a well-formed identifier matching no record yields a distinct
404 NOT_FOUND. -/
theorem C5_id_validation_then_not_found
    (idBad idGood : String) (store : List BugRecord) (p : BugPayload) (now : Nat)
    (h1 : isMongoId idBad = false)
    (h2 : isMongoId idGood = true)
    (h3 : findById store idGood = none)
    (hp : updateBugValidationErrors p = []) :
    getBugByIdRoute idBad store = .rejected ⟨"Invalid bug ID format", 400⟩ ∧
    putBugsRoute idBad p store now =
      (.rejected ⟨"Invalid bug ID format", 400⟩, store) ∧
    deleteBugsRoute idBad store =
      (.rejected ⟨"Invalid bug ID format", 400⟩, store) ∧
    getBugByIdRoute idGood store = .handled (.fail ⟨"Bug not found", 404⟩) ∧
    putBugsRoute idGood p store now =
      (.handled (.fail ⟨"Bug not found", 404⟩), store) ∧
    deleteBugsRoute idGood store =
      (.handled (.fail ⟨"Bug not found", 404⟩), store) := by
  have hbad : bugIdValidationErrors idBad = ["Invalid bug ID format"] := by
    unfold bugIdValidationErrors
    rw [if_neg]
    simp [h1]
  have hgood : bugIdValidationErrors idGood = [] := by
    unfold bugIdValidationErrors
    rw [if_pos h2]
  refine ⟨?_, ?_, ?_, ?_, ?_, ?_⟩
  · unfold getBugByIdRoute
    rw [validateRequest_of_ne_nil (by rw [hbad]; decide), hbad]
    rfl
  · unfold putBugsRoute
    rw [hbad, hp]
    rw [validateRequest_of_ne_nil (by decide)]
    rfl
  · unfold deleteBugsRoute
    rw [validateRequest_of_ne_nil (by rw [hbad]; decide), hbad]
    rfl
  · unfold getBugByIdRoute getBugById
    rw [hgood, h3]
    rfl
  · unfold putBugsRoute updateBug
    rw [hgood, hp, h3]
    rfl
  · unfold deleteBugsRoute deleteBug
    rw [hgood, h3]
    rfl

theorem C5_witness :
    isMongoId "not-a-valid-id" = false ∧
    isMongoId "aaaaaaaaaaaaaaaaaaaaaaaa" = true ∧
    findById [] "aaaaaaaaaaaaaaaaaaaaaaaa" = none ∧
    updateBugValidationErrors {} = [] ∧
    getBugByIdRoute "not-a-valid-id" [] =
      .rejected ⟨"Invalid bug ID format", 400⟩ ∧
    getBugByIdRoute "aaaaaaaaaaaaaaaaaaaaaaaa" [] =
      .handled (.fail ⟨"Bug not found", 404⟩) := by
  have h := C5_id_validation_then_not_found "not-a-valid-id"
    "aaaaaaaaaaaaaaaaaaaaaaaa" [] {} 7 (by decide) (by decide) (by decide) (by decide)
  exact ⟨by decide, by decide, by decide, by decide, h.1, h.2.2.2.1⟩

/-- C6: a validation-shaped rejection from the storage collaborator on the
create or update path is downgraded to a 400 ValidationError whose message
joins the underlying per-field messages; any other storage failure is
surfaced through the error handler as a 500 server error, never swallowed. -/
theorem C6_storage_validation_downgraded_to_400
    (msgs msgs2 : List String) (p p2 : BugPayload)
    (store store2 : List BugRecord) (newId id : String) (now : Nat) (b : BugRecord)
    (hc : bugCreate (createBugData p) newId now = .error (.validation msgs))
    (hf : findById store2 id = some b)
    (hu : findByIdAndUpdate store2 id (buildUpdates p2) now = .error (.validation msgs2)) :
    createBug p store newId now =
      (.fail ⟨String.intercalate ", " msgs, 400⟩, store) ∧
    updateBug p2 id store2 now =
      (.fail ⟨String.intercalate ", " msgs2, 400⟩, store2) ∧
    (∀ m : String, storeErrorResponse (.other m) = ⟨m, 500⟩) ∧
    (∀ m : String, createBugRespond (.error (.other m)) = .fail ⟨m, 500⟩) := by
  refine ⟨?_, ?_, fun m => rfl, fun m => rfl⟩
  · unfold createBug
    rw [hc]
    rfl
  · unfold updateBug
    rw [hf, hu]
    rfl

theorem C6_witness :
    bugCreate (createBugData { title := some "Login button not working", description := some "Users cannot click the login button", reporter := some "John Doe", status := some "urgent" }) "cafebabecafebabecafebabe" 7 =
      .error (.validation ["`urgent` is not a valid enum value for path `status`."]) ∧
    findById [{ _id := "cafebabecafebabecafebabe", title := "Sample bug", description := "Something broke badly", status := "open", priority := "medium", reporter := "Jane", assignedTo := none, tags := [], createdAt := 0, updatedAt := 0 }] "cafebabecafebabecafebabe" = some { _id := "cafebabecafebabecafebabe", title := "Sample bug", description := "Something broke badly", status := "open", priority := "medium", reporter := "Jane", assignedTo := none, tags := [], createdAt := 0, updatedAt := 0 } ∧
    findByIdAndUpdate [{ _id := "cafebabecafebabecafebabe", title := "Sample bug", description := "Something broke badly", status := "open", priority := "medium", reporter := "Jane", assignedTo := none, tags := [], createdAt := 0, updatedAt := 0 }] "cafebabecafebabecafebabe" (buildUpdates { priority := some "urgent" }) 7 =
      .error (.validation ["`urgent` is not a valid enum value for path `priority`."]) ∧
    createBug { title := some "Login button not working", description := some "Users cannot click the login button", reporter := some "John Doe", status := some "urgent" } [] "cafebabecafebabecafebabe" 7 =
      (.fail ⟨"`urgent` is not a valid enum value for path `status`.", 400⟩, []) ∧
    updateBug { priority := some "urgent" } "cafebabecafebabecafebabe" [{ _id := "cafebabecafebabecafebabe", title := "Sample bug", description := "Something broke badly", status := "open", priority := "medium", reporter := "Jane", assignedTo := none, tags := [], createdAt := 0, updatedAt := 0 }] 7 =
      (.fail ⟨"`urgent` is not a valid enum value for path `priority`.", 400⟩,
       [{ _id := "cafebabecafebabecafebabe", title := "Sample bug", description := "Something broke badly", status := "open", priority := "medium", reporter := "Jane", assignedTo := none, tags := [], createdAt := 0, updatedAt := 0 }]) := by
  have h := C6_storage_validation_downgraded_to_400
    ["`urgent` is not a valid enum value for path `status`."]
    ["`urgent` is not a valid enum value for path `priority`."]
    { title := some "Login button not working", description := some "Users cannot click the login button", reporter := some "John Doe", status := some "urgent" }
    { priority := some "urgent" }
    [] [{ _id := "cafebabecafebabecafebabe", title := "Sample bug", description := "Something broke badly", status := "open", priority := "medium", reporter := "Jane", assignedTo := none, tags := [], createdAt := 0, updatedAt := 0 }]
    "cafebabecafebabecafebabe" "cafebabecafebabecafebabe" 7
    { _id := "cafebabecafebabecafebabe", title := "Sample bug", description := "Something broke badly", status := "open", priority := "medium", reporter := "Jane", assignedTo := none, tags := [], createdAt := 0, updatedAt := 0 }
    (by rfl) (by rfl) (by rfl)
  refine ⟨rfl, rfl, rfl, ?_, ?_⟩
  · rw [h.1]; decide
  · rw [h.2.1]; decide

/-- C7 counterexample: a present-but-empty status is replaced by "open" by
the create path, so the substitution does not happen only when status is
absent. -/
theorem C7_counterexample :
    ({ title := some "Valid title", description := some "A valid description", reporter := some "Jane", status := some "" } : BugPayload).status = some "" ∧
    (createBugData { title := some "Valid title", description := some "A valid description", reporter := some "Jane", status := some "" }).status = "open" := by
  exact ⟨rfl, rfl⟩

/-- C7 (amended): the create validation pipeline has no rule for status;
the create operation passes any caller-supplied non-empty status through to
storage unvalidated (substituting "open" when status is absent or the empty
string, since the JS default uses truthiness), while the update pipeline
does validate status against the enumeration. -/
theorem C7_create_status_unvalidated_update_validated
    (p : BugPayload) (s s2 : String) (hs : s ≠ "") (h2 : s2 ∉ validStatuses) :
    createBugValidationErrors { p with status := some s } =
      createBugValidationErrors p ∧
    (createBugData { p with status := some s }).status = s ∧
    (createBugData { p with status := none }).status = "open" ∧
    "Invalid status" ∈ updateBugValidationErrors { p with status := some s2 } := by
  refine ⟨rfl, ?_, rfl, ?_⟩
  · show (if s = "" then "open" else s) = s
    rw [if_neg hs]
  · unfold updateBugValidationErrors
    refine List.mem_append.mpr (Or.inl ?_)
    refine List.mem_append.mpr (Or.inl ?_)
    refine List.mem_append.mpr (Or.inr ?_)
    show "Invalid status" ∈
      (match some s2 with
       | none => []
       | some s => if s ∈ validStatuses then [] else ["Invalid status"])
    rw [show (match some s2 with
       | none => ([] : List String)
       | some s => if s ∈ validStatuses then [] else ["Invalid status"]) =
        if s2 ∈ validStatuses then [] else ["Invalid status"] from rfl]
    rw [if_neg h2]
    exact List.mem_singleton.mpr rfl

theorem C7_witness :
    ("urgent" : String) ≠ "" ∧
    "not-a-status" ∉ validStatuses ∧
    createBugValidationErrors { title := some "Valid title", description := some "A valid description", reporter := some "Jane", status := some "urgent" } =
      createBugValidationErrors { title := some "Valid title", description := some "A valid description", reporter := some "Jane" } ∧
    (createBugData { title := some "Valid title", description := some "A valid description", reporter := some "Jane", status := some "urgent" }).status = "urgent" ∧
    (createBugData { title := some "Valid title", description := some "A valid description", reporter := some "Jane", status := none }).status = "open" ∧
    "Invalid status" ∈ updateBugValidationErrors { title := some "Valid title", description := some "A valid description", reporter := some "Jane", status := some "not-a-status" } := by
  have h := C7_create_status_unvalidated_update_validated
    { title := some "Valid title", description := some "A valid description", reporter := some "Jane" }
    "urgent" "not-a-status" (by decide) (by decide)
  exact ⟨by decide, by decide, h.1, h.2.1, h.2.2.1, h.2.2.2⟩

/-- C8: the stats operation succeeds and reports, for the full unfiltered
collection, one (value, count) pair per occurring status value and per
occurring priority value, each count taken over the whole collection. -/
theorem C8_stats_counts_whole_collection
    (store : List BugRecord) (v : String) (cnt : Nat) :
    ∃ resp, getBugStats store = .ok 200 resp ∧ resp.success = true ∧
      (((v, cnt) ∈ resp.data.byStatus) ↔
        ((∃ b ∈ store, b.status = v) ∧
          cnt = (store.filter (fun b => b.status == v)).length)) ∧
      (resp.data.byStatus.map Prod.fst).Nodup ∧
      (((v, cnt) ∈ resp.data.byPriority) ↔
        ((∃ b ∈ store, b.priority = v) ∧
          cnt = (store.filter (fun b => b.priority == v)).length)) ∧
      (resp.data.byPriority.map Prod.fst).Nodup := by
  refine ⟨_, rfl, rfl, ?_, ?_, ?_, ?_⟩
  · unfold aggregateCountBy
    rw [List.mem_map]
    constructor
    · rintro ⟨w, hw, heq⟩
      obtain ⟨rfl, rfl⟩ : w = v ∧ (store.filter (fun b => b.status == w)).length = cnt := by
        constructor
        · exact congrArg Prod.fst heq
        · exact congrArg Prod.snd heq
      rw [List.mem_dedup, List.mem_map] at hw
      obtain ⟨b, hb, rfl⟩ := hw
      exact ⟨⟨b, hb, rfl⟩, rfl⟩
    · rintro ⟨⟨b, hb, rfl⟩, rfl⟩
      exact ⟨b.status, List.mem_dedup.mpr (List.mem_map.mpr ⟨b, hb, rfl⟩), rfl⟩
  · unfold aggregateCountBy
    rw [List.map_map]
    rw [show (Prod.fst ∘ fun v => (v, (store.filter (fun b => b.status == v)).length)) = id from rfl]
    rw [List.map_id]
    exact List.nodup_dedup _
  · unfold aggregateCountBy
    rw [List.mem_map]
    constructor
    · rintro ⟨w, hw, heq⟩
      obtain ⟨rfl, rfl⟩ : w = v ∧ (store.filter (fun b => b.priority == w)).length = cnt := by
        constructor
        · exact congrArg Prod.fst heq
        · exact congrArg Prod.snd heq
      rw [List.mem_dedup, List.mem_map] at hw
      obtain ⟨b, hb, rfl⟩ := hw
      exact ⟨⟨b, hb, rfl⟩, rfl⟩
    · rintro ⟨⟨b, hb, rfl⟩, rfl⟩
      exact ⟨b.priority, List.mem_dedup.mpr (List.mem_map.mpr ⟨b, hb, rfl⟩), rfl⟩
  · unfold aggregateCountBy
    rw [List.map_map]
    rw [show (Prod.fst ∘ fun v => (v, (store.filter (fun b => b.priority == v)).length)) = id from rfl]
    rw [List.map_id]
    exact List.nodup_dedup _

/-- C10 counterexample: the empty string is outside both enumerations, yet
filtering on it (as the status or as the priority parameter) is ignored by
the JS truthiness test, so the list operation returns the whole collection
rather than count 0 with empty data. -/
theorem C10_counterexample :
    ("" ∉ validStatuses) ∧
    ("" ∉ validPriorities) ∧
    getAllBugs { status := some "" } [sampleBug] =
      .ok 200 ⟨true, 1, [formatBugResponse sampleBug]⟩ ∧
    getAllBugs { status := some "" } [sampleBug] ≠
      .ok 200 ⟨true, 0, []⟩ ∧
    getAllBugs { priority := some "" } [sampleBug] =
      .ok 200 ⟨true, 1, [formatBugResponse sampleBug]⟩ ∧
    getAllBugs { priority := some "" } [sampleBug] ≠
      .ok 200 ⟨true, 0, []⟩ := by
  refine ⟨by decide, by decide, by decide, by decide, by decide, by decide⟩

/-- C10 (amended): the list operation never produces a validation error
(every request succeeds with success true); for every NON-EMPTY status or
priority filter value outside its enumeration it returns count 0 with an
empty data sequence, while an empty-string filter value is dropped (no
filter is applied) by the JS truthiness test. -/
theorem C10_list_filter_no_validation
    (q : ListQuery) (v w : String) (store : List BugRecord)
    (hv : v ∉ validStatuses) (hv' : v ≠ "")
    (hw : w ∉ validPriorities) (hw' : w ≠ "")
    (hstore : ∀ b ∈ store, b.status ∈ validStatuses ∧ b.priority ∈ validPriorities) :
    (∃ resp, getAllBugs q store = .ok 200 resp ∧ resp.success = true) ∧
    getAllBugs { q with status := some v } store = .ok 200 ⟨true, 0, []⟩ ∧
    getAllBugs { q with priority := some w } store = .ok 200 ⟨true, 0, []⟩ := by
  refine ⟨⟨_, rfl, rfl⟩, ?_, ?_⟩
  · have hfil : store.filter (matchesQuery { q with status := some v }) = [] := by
      rw [List.filter_eq_nil_iff]
      intro b hb hmatch
      have h1 : ((if v = "" then true else b.status == v) &&
          (match q.priority with
           | none => true
           | some pr => if pr = "" then true else b.priority == pr)) = true := hmatch
      rw [Bool.and_eq_true] at h1
      have h2 := h1.1
      rw [if_neg hv', beq_iff_eq] at h2
      exact hv (h2 ▸ (hstore b hb).1)
    unfold getAllBugs
    rw [hfil]
    rfl
  · have hfil : store.filter (matchesQuery { q with priority := some w }) = [] := by
      rw [List.filter_eq_nil_iff]
      intro b hb hmatch
      have h1 : ((match q.status with
           | none => true
           | some s => if s = "" then true else b.status == s) &&
          (if w = "" then true else b.priority == w)) = true := hmatch
      rw [Bool.and_eq_true] at h1
      have h2 := h1.2
      rw [if_neg hw', beq_iff_eq] at h2
      exact hw (h2 ▸ (hstore b hb).2)
    unfold getAllBugs
    rw [hfil]
    rfl

theorem C10_witness :
    "invalid-status" ∉ validStatuses ∧
    ("invalid-status" : String) ≠ "" ∧
    "invalid-priority" ∉ validPriorities ∧
    ("invalid-priority" : String) ≠ "" ∧
    (∀ b ∈ [sampleBug], b.status ∈ validStatuses ∧ b.priority ∈ validPriorities) ∧
    (∃ resp, getAllBugs {} [sampleBug] = .ok 200 resp ∧ resp.success = true) ∧
    getAllBugs { status := some "invalid-status" } [sampleBug] =
      .ok 200 ⟨true, 0, []⟩ ∧
    getAllBugs { priority := some "invalid-priority" } [sampleBug] =
      .ok 200 ⟨true, 0, []⟩ := by
  have h := C10_list_filter_no_validation {} "invalid-status" "invalid-priority"
    [sampleBug] (by decide) (by decide) (by decide) (by decide) (by decide)
  exact ⟨by decide, by decide, by decide, by decide, by decide, h.1, h.2.1, h.2.2⟩

/-- C2: an update accepted by the update validation contract, targeting an
existing record and accepted by the storage validators, changes only the
supplied fields (plus updatedAt): omitted fields keep their prior values,
supplied free-text fields are sanitized before persisting, and the storage
layer re-validates the enumerated fields (an invalid status is rejected
there even when handed to it directly). -/
theorem C2_update_is_sparse_sanitized_and_revalidated
    (p : BugPayload) (id : String) (store : List BugRecord) (b : BugRecord)
    (now : Nat) (s' : String)
    (hv : updateBugValidationErrors p = [])
    (hb : findById store id = some b)
    (hs : bugUpdateValidationErrors (buildUpdates p) = [])
    (hbad : s' ∉ validStatuses) :
    (∃ b', updateBug p id store now =
        (.ok 200 ⟨true, formatBugResponse b'⟩,
         store.map (fun x => if x._id == id then b' else x)) ∧
      b'._id = b._id ∧
      b'.reporter = b.reporter ∧
      b'.createdAt = b.createdAt ∧
      b'.updatedAt = now ∧
      b'.title = (match p.title with
        | none => b.title
        | some t => jsTrim (sanitizeInput t)) ∧
      b'.description = (match p.description with
        | none => b.description
        | some d => jsTrim (sanitizeInput d)) ∧
      b'.status = p.status.getD b.status ∧
      b'.priority = p.priority.getD b.priority ∧
      b'.assignedTo = (match p.assignedTo with
        | none => b.assignedTo
        | some a => some (jsTrim (sanitizeInput a))) ∧
      b'.tags = (match p.tags with
        | none => b.tags
        | some (.arr l) => l.map jsTrim
        | some (.scalar s) => [jsTrim s])) ∧
    findByIdAndUpdate store id { status := some s' } now =
      .error (.validation [schemaEnumError "status" s']) := by
  have hsplit := hv
  unfold updateBugValidationErrors at hsplit
  obtain ⟨h4, hG⟩ := List.append_eq_nil.mp hsplit
  obtain ⟨h3, hP⟩ := List.append_eq_nil.mp h4
  obtain ⟨h2, hS⟩ := List.append_eq_nil.mp h3
  obtain ⟨hT, hD⟩ := List.append_eq_nil.mp h2
  constructor
  · refine ⟨applyUpdates b (buildUpdates p) now, ?_, rfl, rfl, rfl, rfl,
      ?_, ?_, ?_, ?_, ?_, ?_⟩
    · unfold updateBug findByIdAndUpdate
      rw [hb, hs]
    · cases hpt : p.title with
      | none => simp [applyUpdates, buildUpdates, hpt]
      | some t =>
        have ht0 : ¬(t = "") := by
          intro h0
          rw [hpt, h0] at hT
          exact absurd hT (by decide)
        simp [applyUpdates, buildUpdates, hpt, ht0]
    · cases hpd : p.description with
      | none => simp [applyUpdates, buildUpdates, hpd]
      | some d =>
        have hd0 : ¬(d = "") := by
          intro h0
          rw [hpd, h0] at hD
          exact absurd hD (by decide)
        simp [applyUpdates, buildUpdates, hpd, hd0]
    · cases hps : p.status with
      | none => simp [applyUpdates, buildUpdates, hps]
      | some s =>
        have hsv : s ∈ validStatuses := by
          by_contra hns
          rw [hps] at hS
          have hS' : (if s ∈ validStatuses then ([] : List String)
              else ["Invalid status"]) = [] := hS
          rw [if_neg hns] at hS'
          exact absurd hS' (by decide)
        have hs0 : ¬(s = "") := by
          intro h0
          rw [h0] at hsv
          exact absurd hsv (by decide)
        simp [applyUpdates, buildUpdates, hps, hs0]
    · cases hpp : p.priority with
      | none => simp [applyUpdates, buildUpdates, hpp]
      | some pr =>
        have hpv : pr ∈ validPriorities := by
          by_contra hns
          rw [hpp] at hP
          have hP' : (if pr ∈ validPriorities then ([] : List String)
              else ["Invalid priority"]) = [] := hP
          rw [if_neg hns] at hP'
          exact absurd hP' (by decide)
        have hp0 : ¬(pr = "") := by
          intro h0
          rw [h0] at hpv
          exact absurd hpv (by decide)
        simp [applyUpdates, buildUpdates, hpp, hp0]
    · cases hpa : p.assignedTo with
      | none => simp [applyUpdates, buildUpdates, hpa]
      | some a => simp [applyUpdates, buildUpdates, hpa]
    · cases hptg : p.tags with
      | none => simp [applyUpdates, buildUpdates, hptg]
      | some tv =>
        cases tv with
        | arr l => simp [applyUpdates, buildUpdates, castTags, hptg]
        | scalar s =>
          rw [hptg] at hG
          exact absurd hG (List.cons_ne_nil _ _)
  · have hval : bugUpdateValidationErrors { status := some s' } =
        [schemaEnumError "status" s'] := by
      simp [bugUpdateValidationErrors, hbad]
    unfold findByIdAndUpdate
    rw [hb, hval]

theorem C2_witness :
    updateBugValidationErrors c2Payload = [] ∧
    findById [sampleBug] "aaaaaaaaaaaaaaaaaaaaaaaa" = some sampleBug ∧
    bugUpdateValidationErrors (buildUpdates c2Payload) = [] ∧
    "wontfix" ∉ validStatuses ∧
    (∃ b', updateBug c2Payload "aaaaaaaaaaaaaaaaaaaaaaaa" [sampleBug] 9 =
        (.ok 200 ⟨true, formatBugResponse b'⟩,
         [sampleBug].map (fun x => if x._id == "aaaaaaaaaaaaaaaaaaaaaaaa" then b' else x)) ∧
      b'._id = "aaaaaaaaaaaaaaaaaaaaaaaa" ∧
      b'.reporter = "Jane" ∧
      b'.createdAt = 0 ∧
      b'.updatedAt = 9 ∧
      b'.title = "Crash on save" ∧
      b'.description = "Something broke badly" ∧
      b'.status = "resolved" ∧
      b'.priority = "medium" ∧
      b'.assignedTo = none ∧
      b'.tags = ([] : List String)) ∧
    findByIdAndUpdate [sampleBug] "aaaaaaaaaaaaaaaaaaaaaaaa"
        { status := some "wontfix" } 9 =
      .error (.validation [schemaEnumError "status" "wontfix"]) := by
  have h := C2_update_is_sparse_sanitized_and_revalidated c2Payload
    "aaaaaaaaaaaaaaaaaaaaaaaa" [sampleBug] sampleBug 9 "wontfix"
    (by decide) (by decide) (by decide) (by decide)
  exact ⟨by decide, by decide, by decide, by decide, h.1, h.2⟩
